import Mathlib

/-!
Shallow embedding of the coordination layer of the meshLights firmware
(src/src/main.cpp): leader election, keyframe phase synchronization,
mode updates, membership-change handling and the error counters.

Machine integers are modelled as `Nat` with explicit `% 2 ^ 32` (for
`uint32_t` values such as node times) and `% 256` (for the `uint8_t`
globals `gHue`, `displayMode`, `timeErrors`, `wifiErrors`).  The
transport library (painlessMesh) is an external collaborator: its
outputs — the node id, the membership list `mesh.getNodeList()`, the
logical clock `mesh.getNodeTime()` and the WiFi attachment status —
are passed to each operation as explicit arguments, and broadcasts are
returned as an explicit output list.
-/

namespace MeshLights

/-- ALONE display mode (`#define ALONE 1` in main.cpp). -/
def ALONE : Nat := 1

/-- CONNECTED display mode (`#define CONNECTED 2` in main.cpp). -/
def CONNECTED : Nat := 2

/-- HUE_DELAY, milliseconds between hue shifts, i.e. the tick interval
(`#define HUE_DELAY 8`). -/
def HUE_DELAY : Nat := 8

/-- MAX_MESSAGE_AGE in microseconds (`#define MAX_MESSAGE_AGE 250000`). -/
def MAX_MESSAGE_AGE : Nat := 250000

/-- MAX_TIME_ERRORS (`#define MAX_TIME_ERRORS 3`). -/
def MAX_TIME_ERRORS : Nat := 3

/-- MAX_WIFI_ERRORS (`#define MAX_WIFI_ERRORS 5`). -/
def MAX_WIFI_ERRORS : Nat := 5

/-- Modulus of a `uint32_t`. -/
def U32 : Nat := 2 ^ 32

/-- Wrapping `uint32_t` subtraction `a - b`, as in
`uint32_t messageAge = currentTime - timeStamp;` (main.cpp line 336). -/
def sub32 (a b : Nat) : Nat := (a % U32 + (U32 - b % U32)) % U32

/-- The mutable coordination globals of main.cpp (lines 56-63):
`amController`, `knownControllerID`, `displayMode`, `gHue`,
`timeErrors` and `wifiErrors`.  The `uint8_t` globals are `Nat`s kept
below 256 by the operations. -/
structure MeshState where
  amController : Bool
  knownControllerID : Nat
  displayMode : Nat
  gHue : Nat
  timeErrors : Nat
  wifiErrors : Nat
deriving Repr, DecidableEq

/-- Folded minimum scan of `controllerElection` (main.cpp lines 222-235):
start from `myNodeID` and lower it past each membership entry. -/
def lowestNode (myNodeID : Nat) (nodes : List Nat) : Nat :=
  nodes.foldl (fun low n => if n < low then n else low) myNodeID

/-- Result of one `controllerElection` call: the new state plus how many
times the transport was stopped and re-inited (`mesh.stop(); mesh.init(...)`,
main.cpp lines 270-271). -/
structure ElectionOut where
  state : MeshState
  reinits : Nat
deriving Repr, DecidableEq

/-- `controllerElection()` (main.cpp lines 221-303).  Inputs supplied by
the transport: `myNodeID = mesh.getNodeId()`, `nodes = mesh.getNodeList()`,
`wifiConnected = (WiFi.status() == WL_CONNECTED)`.  Computes the lowest
node id over `myNodeID :: nodes` (no filtering of any id value), sets
`amController`, runs the WiFi health bookkeeping on `wifiErrors`, and
finally stores `knownControllerID := lowestNodeID`. -/
def controllerElection (s : MeshState) (myNodeID : Nat) (nodes : List Nat)
    (wifiConnected : Bool) : ElectionOut :=
  let lowestNodeID := lowestNode myNodeID nodes
  let s1 : MeshState := { s with amController := lowestNodeID == myNodeID }
  if wifiConnected then
    { state := { s1 with wifiErrors := 0, knownControllerID := lowestNodeID },
      reinits := 0 }
  else
    let w := (s1.wifiErrors + 1) % 256
    if w > MAX_WIFI_ERRORS then
      { state := { s1 with wifiErrors := 0, knownControllerID := lowestNodeID },
        reinits := 1 }
    else
      { state := { s1 with wifiErrors := w, knownControllerID := lowestNodeID },
        reinits := 0 }

/-- A received message after JSON deserialization (main.cpp lines 323-330).
`malformed` stands for a payload on which `deserializeJson` fails: the
document is then empty, so the `msg` field reads back as the null variant
and `receivedMessage.toInt()` yields 0.  `keyframe ts` is a payload whose
`msg` field is the string "KEYFRAME" with timestamp `ts`; `modeUpdate v`
is a payload whose `msg` field is the number `v` (so `toInt()` yields `v`). -/
inductive RxMsg where
  | malformed : RxMsg
  | keyframe (timestamp : Nat) : RxMsg
  | modeUpdate (value : Nat) : RxMsg
deriving Repr, DecidableEq

/-- Value of `receivedMessage.toInt()` for each message shape:
`"KEYFRAME".toInt()` and the failed-parse null variant both give 0. -/
def RxMsg.toIntVal : RxMsg → Nat
  | RxMsg.malformed => 0
  | RxMsg.keyframe _ => 0
  | RxMsg.modeUpdate v => v

/-- `receivedCallback(from, msg)` (main.cpp lines 323-380).
`currentTime = mesh.getNodeTime()` sampled at receipt.  A "KEYFRAME"
message from `knownControllerID` runs the phase correction: if
`messageAge < MAX_MESSAGE_AGE`, then when `255-gHue>12 && 255-gHue<243`
set `gHue` to `(messageAge/1000)/HUE_DELAY` unless already equal, and
update `timeErrors` (`messageAge < 0` is the unsigned comparison of the
source, hence never true); a stale keyframe changes nothing.  Any other
message from `knownControllerID` — including a failed parse — falls to
the `else if` branch and stores `receivedMessage.toInt()` into the
`uint8_t` `displayMode`.  Messages from other senders change nothing. -/
def receivedCallback (s : MeshState) (sender : Nat) (msg : RxMsg)
    (currentTime : Nat) : MeshState :=
  match msg with
  | RxMsg.keyframe timeStamp =>
    if sender = s.knownControllerID then
      let messageAge := sub32 currentTime timeStamp
      if messageAge < MAX_MESSAGE_AGE then
        let s1 :=
          if 12 < 255 - s.gHue ∧ 255 - s.gHue < 243 then
            let newHue := messageAge / 1000 / HUE_DELAY
            if s.gHue ≠ newHue then { s with gHue := newHue % 256 } else s
          else s
        if messageAge < 0 then
          { s1 with timeErrors := (s1.timeErrors + 1) % 256 }
        else
          { s1 with timeErrors := 0 }
      else s
    else s
  | _ =>
    if sender = s.knownControllerID then
      { s with displayMode := RxMsg.toIntVal msg % 256 }
    else s

/-- A message broadcast through `mesh.sendBroadcast` by `sendMessage`
(main.cpp lines 306-319): either a keyframe or a display-mode update,
stamped with `mesh.getNodeTime()` read inside `sendMessage`. -/
inductive SentMsg where
  | keyframe (timestamp : Nat) : SentMsg
  | modeUpdate (mode : Nat) : SentMsg
deriving Repr, DecidableEq

/-- `shiftHue()` (main.cpp lines 150-160), one tick of the phase counter.
`nodeCount = mesh.getNodeList().size()` and `clockNow = mesh.getNodeTime()`
at the moment `sendMessage` would read it.  When the counter reads 0 and
this node is the controller of a non-empty mesh, one KEYFRAME broadcast
goes out; then `gHue++` wraps as a `uint8_t`. -/
def shiftHue (s : MeshState) (nodeCount : Nat) (clockNow : Nat) :
    MeshState × List SentMsg :=
  let out : List SentMsg :=
    if s.gHue = 0 then
      if s.amController = true ∧ 0 < nodeCount then [SentMsg.keyframe clockNow]
      else []
    else []
  ({ s with gHue := (s.gHue + 1) % 256 }, out)

/-- `changedConnectionCallback()` (main.cpp lines 387-402): run an
election, then set `displayMode` to CONNECTED when the membership list is
non-empty and to ALONE when it is empty. -/
def changedConnectionCallback (s : MeshState) (myNodeID : Nat)
    (nodes : List Nat) (wifiConnected : Bool) : ElectionOut :=
  let e := controllerElection s myNodeID nodes wifiConnected
  if 0 < nodes.length then
    { e with state := { e.state with displayMode := CONNECTED } }
  else
    { e with state := { e.state with displayMode := ALONE } }

/-- Iterate `controllerElection` for `k` consecutive cycles in which the
transport reports no WiFi attachment, returning the final state and the
total number of transport re-inits performed. -/
def runUnhealthyCycles (s : MeshState) (myNodeID : Nat) (nodes : List Nat) :
    Nat → MeshState × Nat
  | 0 => (s, 0)
  | k + 1 =>
    let e := controllerElection s myNodeID nodes false
    let r := runUnhealthyCycles e.state myNodeID nodes k
    (r.1, e.reinits + r.2)

/-- Modelled from the spec: the leader rule as the claim words it — the
minimum non-sentinel id of `membership ∪ {selfID}` (sentinel 0 filtered
out), `none` when no non-sentinel id exists.  Used only to compare the
claimed rule against what `controllerElection` computes. -/
def specMinNonSentinel (selfID : Nat) (membership : List Nat) : Option Nat :=
  match (selfID :: membership).filter (fun n => n ≠ 0) with
  | [] => none
  | x :: xs => some (xs.foldl Nat.min x)

theorem lowestNode_cons (a n : Nat) (t : List Nat) :
    lowestNode a (n :: t) = lowestNode (if n < a then n else a) t := rfl

theorem lowestNode_le_init (nodes : List Nat) (a : Nat) :
    lowestNode a nodes ≤ a := by
  induction nodes generalizing a with
  | nil => exact Nat.le_refl a
  | cons n t ih =>
    rw [lowestNode_cons]
    by_cases h : n < a
    · rw [if_pos h]; exact le_trans (ih n) (Nat.le_of_lt h)
    · rw [if_neg h]; exact ih a

theorem lowestNode_le (nodes : List Nat) (a : Nat) :
    ∀ x ∈ nodes, lowestNode a nodes ≤ x := by
  induction nodes generalizing a with
  | nil => intro x hx; cases hx
  | cons n t ih =>
    intro x hx
    rw [lowestNode_cons]
    rcases List.mem_cons.mp hx with h1 | h2
    · rw [h1]
      by_cases h : n < a
      · rw [if_pos h]; exact lowestNode_le_init t n
      · rw [if_neg h]; exact le_trans (lowestNode_le_init t a) (Nat.le_of_not_lt h)
    · by_cases h : n < a
      · rw [if_pos h]; exact ih n x h2
      · rw [if_neg h]; exact ih a x h2

theorem lowestNode_mem (nodes : List Nat) (a : Nat) :
    lowestNode a nodes = a ∨ lowestNode a nodes ∈ nodes := by
  induction nodes generalizing a with
  | nil => exact Or.inl rfl
  | cons n t ih =>
    rw [lowestNode_cons]
    by_cases h : n < a
    · rw [if_pos h]
      rcases ih n with h1 | h1
      · exact Or.inr (by rw [h1]; exact List.mem_cons_self n t)
      · exact Or.inr (List.mem_cons_of_mem n h1)
    · rw [if_neg h]
      rcases ih a with h1 | h1
      · exact Or.inl h1
      · exact Or.inr (List.mem_cons_of_mem n h1)

/-- Field accounting for one election call: `knownControllerID` and
`amController` depend only on the inputs, and the animation state is
untouched. -/
theorem controllerElection_fields (s : MeshState) (myNodeID : Nat)
    (nodes : List Nat) (wifi : Bool) :
    (controllerElection s myNodeID nodes wifi).state.knownControllerID
        = lowestNode myNodeID nodes ∧
    (controllerElection s myNodeID nodes wifi).state.amController
        = (lowestNode myNodeID nodes == myNodeID) ∧
    (controllerElection s myNodeID nodes wifi).state.displayMode = s.displayMode ∧
    (controllerElection s myNodeID nodes wifi).state.gHue = s.gHue ∧
    (controllerElection s myNodeID nodes wifi).state.timeErrors = s.timeErrors := by
  unfold controllerElection
  cases wifi <;> simp only [Bool.false_eq_true, if_false, if_true] <;>
    [split; skip] <;> simp

/-- C1 counterexample: with selfID 3 and membership [0, 5] (a snapshot
holding the non-sentinel id 5), the claimed sentinel-filtered rule gives
leader 3, but `controllerElection` performs no sentinel filtering and
stores the raw minimum 0 as `knownControllerID`. -/
theorem C1_counterexample :
    (controllerElection ⟨false, 0, 1, 0, 0, 0⟩ 3 [0, 5] true).state.knownControllerID = 0 ∧
    specMinNonSentinel 3 [0, 5] = some 3 ∧ (0 : Nat) ≠ 3 := by decide

/-- C1 (amended): the election stores as `knownControllerID` the minimum
of membership ∪ \x7bselfID\x7d under natural ordering with NO sentinel
filtering, sets `amController` exactly when that minimum equals selfID,
and is idempotent and deterministic: repeating the call with the same
selfID and membership yields the same (leaderID, isLeader). -/
theorem C1_amended_election_min (s : MeshState) (myNodeID : Nat)
    (nodes : List Nat) (wifi : Bool) :
    (controllerElection s myNodeID nodes wifi).state.knownControllerID
        ∈ myNodeID :: nodes ∧
    (∀ x ∈ myNodeID :: nodes,
      (controllerElection s myNodeID nodes wifi).state.knownControllerID ≤ x) ∧
    ((controllerElection s myNodeID nodes wifi).state.amController = true ↔
      (controllerElection s myNodeID nodes wifi).state.knownControllerID = myNodeID) ∧
    (controllerElection (controllerElection s myNodeID nodes wifi).state
        myNodeID nodes wifi).state.knownControllerID
      = (controllerElection s myNodeID nodes wifi).state.knownControllerID ∧
    (controllerElection (controllerElection s myNodeID nodes wifi).state
        myNodeID nodes wifi).state.amController
      = (controllerElection s myNodeID nodes wifi).state.amController := by
  obtain ⟨hk, ha, -, -, -⟩ := controllerElection_fields s myNodeID nodes wifi
  obtain ⟨hk2, ha2, -, -, -⟩ :=
    controllerElection_fields (controllerElection s myNodeID nodes wifi).state
      myNodeID nodes wifi
  refine ⟨?_, ?_, ?_, ?_, ?_⟩
  · rw [hk]
    rcases lowestNode_mem nodes myNodeID with h | h
    · rw [h]; exact List.mem_cons_self myNodeID nodes
    · exact List.mem_cons_of_mem myNodeID h
  · intro x hx
    rw [hk]
    rcases List.mem_cons.mp hx with h | h
    · rw [h]; exact lowestNode_le_init nodes myNodeID
    · exact lowestNode_le nodes myNodeID x h
  · rw [ha, hk]; exact beq_iff_eq
  · rw [hk2, hk]
  · rw [ha2, ha]

/-- C1 witness: the amended election theorem applied at selfID 7,
membership [9, 4]. -/
theorem C1_amended_election_min_witness :
    (controllerElection ⟨false, 0, 1, 0, 0, 0⟩ 7 [9, 4] true).state.knownControllerID
      ∈ 7 :: [9, 4] :=
  (C1_amended_election_min ⟨false, 0, 1, 0, 0, 0⟩ 7 [9, 4] true).1

/-- C10: a `controllerElection` call — forced-periodic or
membership-triggered, attached or not — never changes the display mode
or the phase counter `gHue`; it only rewrites the leadership fields and
the WiFi error counter. -/
theorem C10_election_preserves_animation (s : MeshState) (myNodeID : Nat)
    (nodes : List Nat) (wifi : Bool) :
    (controllerElection s myNodeID nodes wifi).state.displayMode = s.displayMode ∧
    (controllerElection s myNodeID nodes wifi).state.gHue = s.gHue := by
  obtain ⟨-, -, hd, hg, -⟩ := controllerElection_fields s myNodeID nodes wifi
  exact ⟨hd, hg⟩

/-- Evaluation of an accepted keyframe (sender is the known controller,
`messageAge < MAX_MESSAGE_AGE`): the phase is corrected exactly when the
dead-zone test passes, and `timeErrors` is reset to 0 — the unsigned
`messageAge < 0` test of the source can never hold. -/
theorem receivedCallback_keyframe_accepted (s : MeshState) (sender ts ct : Nat)
    (hsender : sender = s.knownControllerID)
    (hage : sub32 ct ts < MAX_MESSAGE_AGE) :
    receivedCallback s sender (RxMsg.keyframe ts) ct =
      { s with
        gHue :=
          if 12 < 255 - s.gHue ∧ 255 - s.gHue < 243 then
            (sub32 ct ts / 1000 / HUE_DELAY) % 256
          else s.gHue,
        timeErrors := 0 } := by
  have hA : sub32 ct ts < 250000 := hage
  have hH : sub32 ct ts / 1000 / HUE_DELAY < 256 := by
    show sub32 ct ts / 1000 / 8 < 256
    omega
  simp only [receivedCallback]
  rw [if_pos hsender, if_pos hage, if_neg (Nat.not_lt_zero _)]
  split_ifs with hdz hne
  · rfl
  · simp only [ne_eq, not_not] at hne
    rw [Nat.mod_eq_of_lt hH, ← hne]
  · rfl

/-- C2: a Keyframe from the known leader with `messageAge` in
`[0, MAX_MESSAGE_AGE)` (non-negativity is inherent to the unsigned age)
received while `255 - gHue` lies strictly between the tolerance bands 12
and 243 sets the phase counter to `(messageAge/1000)/HUE_DELAY mod 256`,
and reapplying the same keyframe — same sender, timestamp and receipt
time, hence the same estimate — leaves the phase unchanged. -/
theorem C2_keyframe_phase_correction (s : MeshState) (sender ts ct : Nat)
    (hsender : sender = s.knownControllerID)
    (hage : sub32 ct ts < MAX_MESSAGE_AGE)
    (hlo : 12 < 255 - s.gHue) (hhi : 255 - s.gHue < 243) :
    (receivedCallback s sender (RxMsg.keyframe ts) ct).gHue
        = (sub32 ct ts / 1000 / HUE_DELAY) % 256 ∧
    (receivedCallback (receivedCallback s sender (RxMsg.keyframe ts) ct)
        sender (RxMsg.keyframe ts) ct).gHue
      = (receivedCallback s sender (RxMsg.keyframe ts) ct).gHue := by
  have h1 := receivedCallback_keyframe_accepted s sender ts ct hsender hage
  have hrg : (receivedCallback s sender (RxMsg.keyframe ts) ct).gHue
      = (sub32 ct ts / 1000 / HUE_DELAY) % 256 := by
    rw [h1]
    split_ifs with h
    · rfl
    · exact absurd ⟨hlo, hhi⟩ h
  refine ⟨hrg, ?_⟩
  have hsender2 : sender
      = (receivedCallback s sender (RxMsg.keyframe ts) ct).knownControllerID := by
    rw [h1]; exact hsender
  have h2 := receivedCallback_keyframe_accepted
      (receivedCallback s sender (RxMsg.keyframe ts) ct) sender ts ct hsender2 hage
  rw [h2]
  split_ifs with h
  · exact hrg.symm
  · rfl

/-- C2 witness: leader 10, keyframe timestamp 0 received at clock 96000
with gHue 240 (dead-zone passed): the phase becomes 96/8 = 12. -/
theorem C2_keyframe_phase_correction_witness :
    (receivedCallback ⟨false, 10, 2, 240, 0, 0⟩ 10 (RxMsg.keyframe 0) 96000).gHue
      = (sub32 96000 0 / 1000 / HUE_DELAY) % 256 :=
  (C2_keyframe_phase_correction ⟨false, 10, 2, 240, 0, 0⟩ 10 0 96000 rfl
    (by decide) (by decide) (by decide)).1

/-- C3: a ModeUpdate whose sender differs from `knownControllerID` leaves
the whole state — in particular the display mode — unchanged, and for a
sender other than the known controller no message of any shape can change
the display mode. -/
theorem C3_nonleader_mode_ignored (s : MeshState) (sender v ct : Nat)
    (h : sender ≠ s.knownControllerID) :
    receivedCallback s sender (RxMsg.modeUpdate v) ct = s ∧
    ∀ msg : RxMsg,
      (receivedCallback s sender msg ct).displayMode ≠ s.displayMode →
        sender = s.knownControllerID := by
  constructor
  · simp only [receivedCallback]
    rw [if_neg h]
  · intro msg hmode
    exfalso
    apply hmode
    cases msg with
    | malformed => simp only [receivedCallback]; rw [if_neg h]
    | keyframe ts => simp only [receivedCallback]; rw [if_neg h]
    | modeUpdate w => simp only [receivedCallback]; rw [if_neg h]

/-- C3 witness: a mode update from node 11 while the known controller is
node 10 is a complete no-op. -/
theorem C3_nonleader_mode_ignored_witness :
    receivedCallback ⟨false, 10, 2, 100, 0, 0⟩ 11 (RxMsg.modeUpdate 1) 0
      = ⟨false, 10, 2, 100, 0, 0⟩ :=
  (C3_nonleader_mode_ignored ⟨false, 10, 2, 100, 0, 0⟩ 11 1 0 (by decide)).1

/-- C4: a Keyframe from the known leader whose `messageAge` is at least
MAX_MESSAGE_AGE is discarded: the state — phase counter, mode, leader and
both error counters — is exactly the state before receipt. -/
theorem C4_stale_keyframe_discarded (s : MeshState) (sender ts ct : Nat)
    (hsender : sender = s.knownControllerID)
    (hage : MAX_MESSAGE_AGE ≤ sub32 ct ts) :
    receivedCallback s sender (RxMsg.keyframe ts) ct = s := by
  simp only [receivedCallback]
  rw [if_pos hsender, if_neg (not_lt.mpr hage)]

/-- C4 witness: a keyframe exactly MAX_MESSAGE_AGE old changes nothing. -/
theorem C4_stale_keyframe_discarded_witness :
    receivedCallback ⟨false, 10, 2, 100, 0, 0⟩ 10 (RxMsg.keyframe 0) 250000
      = ⟨false, 10, 2, 100, 0, 0⟩ :=
  C4_stale_keyframe_discarded ⟨false, 10, 2, 100, 0, 0⟩ 10 0 250000 rfl (by decide)

/-- C5 evaluation at the failing input: the known leader 10 sends a
keyframe stamped 1000 that arrives at local clock 0, i.e. the sender
clock is 1000 microseconds ahead and the true message age is negative.
The source computes the age as the `uint32_t` value 2^32 - 1000, takes
the stale-message branch, and returns with `timeErrors` still 0: the
`messageAge < 0` branch that the claim describes is unreachable. -/
theorem C5_negative_age_no_skew_count :
    receivedCallback ⟨false, 10, 2, 100, 0, 0⟩ 10 (RxMsg.keyframe 1000) 0
      = ⟨false, 10, 2, 100, 0, 0⟩ := by decide

/-- C9 evaluation at the failing input: a payload on which
`deserializeJson` fails, sent by the known controller 10, is not
discarded — the callback falls through to the mode-update branch and
stores `toInt()` of the null msg field, setting `displayMode` from
CONNECTED to 0 (a mode that is neither ALONE nor CONNECTED). -/
theorem C9_malformed_from_leader_changes_mode :
    (receivedCallback ⟨false, 10, CONNECTED, 100, 0, 0⟩ 10 RxMsg.malformed 0).displayMode
        = 0 ∧
    CONNECTED ≠ 0 := by decide

/-- C6 counterexample: a membership snapshot holding only the sentinel id
0 does not send the node to ALONE — `changedConnectionCallback` tests only
`nodes.size() > 0`, so the node is put in CONNECTED mode. -/
theorem C6_counterexample :
    (changedConnectionCallback ⟨false, 0, 1, 0, 0, 0⟩ 3 [0] true).state.displayMode
        = CONNECTED ∧
    CONNECTED ≠ ALONE := by decide

/-- C6 (amended): a membership snapshot equal to the empty set sends the
node to ALONE (Solo) mode within the one `changedConnectionCallback`
evaluation, regardless of its leadership status; a snapshot containing
only the sentinel id is treated as non-empty and yields CONNECTED. -/
theorem C6_amended_empty_membership_solo (s : MeshState) (myNodeID : Nat)
    (wifi : Bool) :
    (changedConnectionCallback s myNodeID [] wifi).state.displayMode = ALONE := by
  simp [changedConnectionCallback]

/-- C7: one `shiftHue` tick advances the phase counter by 1 with
wraparound from 255 to 0, and broadcasts exactly one Keyframe stamped
with the clock reading taken at send time precisely when this node is
the controller, the membership is non-empty, and the counter reads 0 —
the tick immediately after the wrap (or the initial state). -/
theorem C7_tick_advance_and_keyframe (s : MeshState) (nodeCount clockNow : Nat) :
    (shiftHue s nodeCount clockNow).1.gHue = (s.gHue + 1) % 256 ∧
    (s.gHue = 255 → (shiftHue s nodeCount clockNow).1.gHue = 0) ∧
    (s.amController = true → 0 < nodeCount → s.gHue = 0 →
      (shiftHue s nodeCount clockNow).2 = [SentMsg.keyframe clockNow]) ∧
    (¬(s.amController = true ∧ 0 < nodeCount ∧ s.gHue = 0) →
      (shiftHue s nodeCount clockNow).2 = []) := by
  refine ⟨rfl, ?_, ?_, ?_⟩
  · intro h; simp [shiftHue, h]
  · intro h1 h2 h3; simp [shiftHue, h1, h2, h3]
  · intro h
    by_cases hg : s.gHue = 0
    · have hc : ¬(s.amController = true ∧ 0 < nodeCount) :=
        fun hc => h ⟨hc.1, hc.2, hg⟩
      simp [shiftHue, hg, hc]
    · simp [shiftHue, hg]

/-- C7 witness: a controller with one peer and counter 0 emits the single
keyframe stamped 777. -/
theorem C7_tick_advance_and_keyframe_witness :
    (shiftHue ⟨true, 5, 2, 0, 0, 0⟩ 1 777).2 = [SentMsg.keyframe 777] :=
  (C7_tick_advance_and_keyframe ⟨true, 5, 2, 0, 0, 0⟩ 1 777).2.2.1 rfl
    (by decide) rfl

/-- One unattached election cycle: the wifi error counter either
increments (as a `uint8_t`) or, past MAX_WIFI_ERRORS, resets to 0 with
exactly one transport re-init. -/
theorem controllerElection_unhealthy_step (s : MeshState) (m : Nat)
    (nodes : List Nat) :
    (controllerElection s m nodes false).state.wifiErrors
        = (if (s.wifiErrors + 1) % 256 > MAX_WIFI_ERRORS then 0
           else (s.wifiErrors + 1) % 256) ∧
    (controllerElection s m nodes false).reinits
        = (if (s.wifiErrors + 1) % 256 > MAX_WIFI_ERRORS then 1 else 0) := by
  simp only [controllerElection, Bool.false_eq_true, if_false]
  split_ifs with h <;> simp_all

/-- Exact reinit count over a run of consecutive unattached election
cycles that stays within one threshold crossing. -/
theorem runUnhealthy_exact (m : Nat) (nodes : List Nat) :
    ∀ (k : Nat) (s : MeshState), s.wifiErrors ≤ MAX_WIFI_ERRORS →
      s.wifiErrors + k ≤ MAX_WIFI_ERRORS + 1 →
      (runUnhealthyCycles s m nodes k).2
          = (if s.wifiErrors + k = MAX_WIFI_ERRORS + 1 then 1 else 0) ∧
      (runUnhealthyCycles s m nodes k).1.wifiErrors
          = (if s.wifiErrors + k = MAX_WIFI_ERRORS + 1 then 0
             else s.wifiErrors + k) := by
  intro k
  induction k with
  | zero =>
    intro s h1 h2
    have hne : ¬(s.wifiErrors = MAX_WIFI_ERRORS + 1) := by
      simp only [MAX_WIFI_ERRORS] at h1 ⊢; omega
    simp [runUnhealthyCycles, hne]
  | succ k ih =>
    intro s h1 h2
    obtain ⟨hw, hr⟩ := controllerElection_unhealthy_step s m nodes
    have hmod : (s.wifiErrors + 1) % 256 = s.wifiErrors + 1 := by
      have h5 : s.wifiErrors ≤ 5 := h1
      omega
    rw [hmod] at hw hr
    simp only [MAX_WIFI_ERRORS] at h1 h2 hw hr ⊢
    by_cases h5 : s.wifiErrors = 5
    · have hk : k = 0 := by omega
      subst hk
      have hw' : (controllerElection s m nodes false).state.wifiErrors = 0 := by
        rw [hw, if_pos (by omega)]
      have hr' : (controllerElection s m nodes false).reinits = 1 := by
        rw [hr, if_pos (by omega)]
      simp [runUnhealthyCycles, hw', hr', h5]
    · have hw' : (controllerElection s m nodes false).state.wifiErrors
          = s.wifiErrors + 1 := by
        rw [hw, if_neg (by omega)]
      have hr' : (controllerElection s m nodes false).reinits = 0 := by
        rw [hr, if_neg (by omega)]
      obtain ⟨ih1, ih2⟩ := ih (controllerElection s m nodes false).state
        (by simp only [MAX_WIFI_ERRORS]; omega)
        (by simp only [MAX_WIFI_ERRORS]; omega)
      simp only [MAX_WIFI_ERRORS] at ih1 ih2
      rw [hw'] at ih1 ih2
      have harith : s.wifiErrors + 1 + k = s.wifiErrors + (k + 1) := by omega
      rw [harith] at ih1 ih2
      constructor
      · show (controllerElection s m nodes false).reinits +
            (runUnhealthyCycles (controllerElection s m nodes false).state
              m nodes k).2 = _
        rw [hr', ih1, Nat.zero_add]
      · show (runUnhealthyCycles (controllerElection s m nodes false).state
              m nodes k).1.wifiErrors = _
        rw [ih2]

/-- C8: starting from a reset counter, MAX_WIFI_ERRORS + 1 consecutive
election cycles in which the transport reports no attachment perform
exactly one transport stop-and-reinit and leave `wifiErrors` back at 0;
and any single attached election cycle resets `wifiErrors` to 0
immediately, with no reinit. -/
theorem C8_transport_reinit (s : MeshState) (m : Nat) (nodes : List Nat)
    (h : s.wifiErrors = 0) :
    (runUnhealthyCycles s m nodes (MAX_WIFI_ERRORS + 1)).2 = 1 ∧
    (runUnhealthyCycles s m nodes (MAX_WIFI_ERRORS + 1)).1.wifiErrors = 0 ∧
    ∀ s2 : MeshState, (controllerElection s2 m nodes true).state.wifiErrors = 0 ∧
      (controllerElection s2 m nodes true).reinits = 0 := by
  obtain ⟨h1, h2⟩ := runUnhealthy_exact m nodes (MAX_WIFI_ERRORS + 1) s
    (by rw [h]; exact Nat.zero_le _) (by rw [h, Nat.zero_add])
  rw [h, Nat.zero_add, if_pos rfl] at h1 h2
  refine ⟨h1, h2, ?_⟩
  intro s2
  constructor <;> simp [controllerElection]

/-- C8 witness: the theorem at a node with id 7, one peer, counter 0. -/
theorem C8_transport_reinit_witness :
    (runUnhealthyCycles ⟨false, 0, 1, 0, 0, 0⟩ 7 [3] (MAX_WIFI_ERRORS + 1)).2 = 1 :=
  (C8_transport_reinit ⟨false, 0, 1, 0, 0, 0⟩ 7 [3] rfl).1

end MeshLights
